import Mathlib

/-!
Shallow embedding of `verl/tools/python_interpreter.py`.

The module contains two helper functions, `_maybe_wrap_print` and
`_run_snippet`, and a class `PythonInterpreterTool` with methods
`create`, `execute` and `release`.  Python strings are modelled as Lean
`String`s (sequences of unicode code points, matching CPython `str`),
Python `dict`s as association lists with first-match lookup,
insert-in-place update and first-match removal, and the reward float as
a rational number.  The external calls (`compile(..., "eval")`, which
either succeeds or raises `SyntaxError`, and `subprocess.run`, whose
outcome is completion, `TimeoutExpired`, or another launch-level
exception) are modelled by an oracle parameter and an explicit outcome
datatype.
-/

/-- Python `str.isspace` character class (the whitespace set used by
`str.strip()` / `str.rstrip()`). -/
def pyIsSpace (c : Char) : Bool :=
  c = ' ' || c = '\t' || c = '\n' || c = '\r' || c.val = 11 || c.val = 12 ||
  c.val = 28 || c.val = 29 || c.val = 30 || c.val = 31 || c.val = 133 || c.val = 160 ||
  c.val = 5760 || (8192 ≤ c.val && c.val ≤ 8202) || c.val = 8232 || c.val = 8233 ||
  c.val = 8239 || c.val = 8287 || c.val = 12288

/-- Python `str.strip()`: drop leading and trailing whitespace. -/
def pyStrip (s : String) : String :=
  String.mk (((s.toList.dropWhile pyIsSpace).reverse.dropWhile pyIsSpace).reverse)

/-- Python `str.rstrip()`: drop trailing whitespace. -/
def pyRstrip (s : String) : String :=
  String.mk ((s.toList.reverse.dropWhile pyIsSpace).reverse)

/-- List prefix test (used for the substring test below and for removing
the dedent margin). -/
def listIsPrefix : List Char → List Char → Bool
  | [], _ => true
  | _ :: _, [] => false
  | a :: as, b :: bs => a = b && listIsPrefix as bs

/-- Contiguous-sublist test on code-point lists. -/
def listContainsSub (sub : List Char) : List Char → Bool
  | [] => sub.isEmpty
  | c :: rest => listIsPrefix sub (c :: rest) || listContainsSub sub rest

/-- Python `sub in s` substring containment on `str`. -/
def pyContains (s sub : String) : Bool :=
  listContainsSub sub.toList s.toList

/-- Python `s.split("\n")`: split on every newline, keeping empty pieces. -/
def splitNl : List Char → List (List Char)
  | [] => [[]]
  | c :: rest =>
    if c = '\n' then [] :: splitNl rest
    else
      match splitNl rest with
      | [] => [[c]]
      | l :: ls => (c :: l) :: ls

/-- Python `code.replace(";", "\n")`. -/
def semiToNl (s : String) : String :=
  String.mk (s.toList.map (fun c => if c = ';' then '\n' else c))

/-- The logical-line pipeline of `_maybe_wrap_print`: semicolons become
newlines, each piece is stripped, and empty pieces are dropped
(`[ln.strip() for ln in code_nl.split("\n") if ln.strip()]`). -/
def logicalLines (code : String) : List String :=
  ((splitNl (semiToNl code).toList).map (fun l => pyStrip (String.mk l))).filter
    (fun l => !(l == ""))

/-- True for a line matching `textwrap`'s `^[ \t]+$` whitespace-only
regex. -/
def wsOnly (l : List Char) : Bool :=
  !l.isEmpty && l.all (fun c => c = ' ' || c = '\t')

/-- The leading run of spaces and tabs of a line. -/
def lineIndent (l : List Char) : List Char :=
  l.takeWhile (fun c => c = ' ' || c = '\t')

/-- Longest common prefix of two indent strings. -/
def commonPrefix : List Char → List Char → List Char
  | a :: as, b :: bs => if a = b then a :: commonPrefix as bs else []
  | _, _ => []

/-- The margin `textwrap.dedent` computes: the longest common leading
space/tab run over all lines still non-empty after whitespace-only lines
were blanked. -/
def marginOf (ls : List (List Char)) : List Char :=
  match (ls.filter (fun l => !l.isEmpty)).map lineIndent with
  | [] => []
  | i :: is => is.foldl commonPrefix i

/-- `textwrap.dedent`: blank the whitespace-only lines, compute the common
space/tab margin of the remaining lines, and remove it from every line
that starts with it. -/
def pyDedent (s : String) : String :=
  let lines := (splitNl s.toList).map (fun l => if wsOnly l then [] else l)
  let margin := marginOf lines
  String.mk (List.intercalate ['\n']
    (lines.map (fun l => if listIsPrefix margin l then l.drop margin.length else l)))

/-- `_maybe_wrap_print` from the source.  The `parse` oracle models
`compile(last, "<expr>", "eval")`: `true` when the chunk parses in
expression-only grammar mode, `false` when that call raises the
`SyntaxError` caught at the call site.  This Bool-valued oracle collapses
`compile`'s non-`SyntaxError` failures (such as `ValueError` on a source
containing null bytes), which the `except SyntaxError` clause does not
catch; `_maybe_wrap_print_exc` below embeds that exception channel
explicitly, and `maybe_wrap_print_exc_refines` shows the two embeddings
agree whenever `compile` raises nothing beyond `SyntaxError`. -/
def _maybe_wrap_print (parse : String → Bool) (code : String) : String :=
  if pyContains code "print(" then code
  else
    match (logicalLines code).getLast? with
    | none => code
    | some last =>
      if pyContains last "=" then code
      else if parse last then
        pyRstrip (pyDedent code) ++ "\nprint(" ++ last ++ ")"
      else code

/-- Result of the external `compile(last, "<expr>", "eval")` call: success,
the `SyntaxError` that the call site catches, or any other exception —
CPython documents `ValueError` for sources containing null bytes — which
the `except SyntaxError` clause lets propagate. -/
inductive CompileResult where
  | ok
  | syntaxError
  | otherExc (exc : String)
deriving DecidableEq

/-- `_maybe_wrap_print` with `compile`'s full exception channel made
explicit.  The branch structure is that of the source; the only `except`
clause is for `SyntaxError` (which returns the code unchanged), so a
`CompileResult.otherExc` outcome propagates to the caller as
`Except.error`. -/
def _maybe_wrap_print_exc (compile : String → CompileResult) (code : String) :
    Except String String :=
  if pyContains code "print(" then .ok code
  else
    match (logicalLines code).getLast? with
    | none => .ok code
    | some last =>
      if pyContains last "=" then .ok code
      else
        match compile last with
        | .ok => .ok (pyRstrip (pyDedent code) ++ "\nprint(" ++ last ++ ")")
        | .syntaxError => .ok code
        | .otherExc exc => .error exc

/-- A compile oracle recording CPython's documented behaviour on sources
containing null bytes: `compile` raises `ValueError`, not the caught
`SyntaxError`.  Sources without null bytes are taken to compile
successfully; only the null-byte point is used. -/
def compileNullByteValueError (s : String) : CompileResult :=
  if pyContains s "\x00" then
    .otherExc "ValueError: source code string cannot contain null bytes"
  else .ok

/-- Python slicing `s[:n]` on `str`: the first `n` code points. -/
def pySlice (s : String) (n : Nat) : String :=
  String.mk (s.toList.take n)

/-- Lower-case hex digit for `n < 16`. -/
def hexDigit (n : Nat) : Char :=
  if n < 10 then Char.ofNat (48 + n) else Char.ofNat (87 + n)

/-- Four lower-case hex digits, as in CPython's `\uXXXX` escapes. -/
def toHex4 (n : Nat) : String :=
  String.mk [hexDigit (n / 4096 % 16), hexDigit (n / 256 % 16),
             hexDigit (n / 16 % 16), hexDigit (n % 16)]

/-- CPython `json` string escaping with `ensure_ascii=True`
(`py_encode_basestring_ascii`): short escapes for `"` `\` and the common
control characters, `\uXXXX` (with surrogate pairs above the BMP) for the
other controls and everything outside printable ASCII. -/
def jsonEscapeChar (c : Char) : String :=
  if c = '"' then "\\\""
  else if c = '\\' then "\\\\"
  else if c.val = 8 then "\\b"
  else if c = '\t' then "\\t"
  else if c = '\n' then "\\n"
  else if c.val = 12 then "\\f"
  else if c = '\r' then "\\r"
  else if c.val < 32 || c.val > 126 then
    if 65536 ≤ c.toNat then
      "\\u" ++ toHex4 (55296 + (c.toNat - 65536) / 1024) ++
      "\\u" ++ toHex4 (56320 + (c.toNat - 65536) % 1024)
    else "\\u" ++ toHex4 c.toNat
  else String.mk [c]

/-- A JSON string literal for `s`, per CPython `json.dumps`. -/
def jsonEncodeString (s : String) : String :=
  "\"" ++ String.join (s.toList.map jsonEscapeChar) ++ "\""

/-- `json.dumps({"stdout": out, "stderr": err})` with the default
separators. -/
def jsonDumpsStdoutStderr (out err : String) : String :=
  "\x7b\"stdout\": " ++ jsonEncodeString out ++ ", \"stderr\": " ++
    jsonEncodeString err ++ "\x7d"

/-- Outcome of the `subprocess.run(["python3", tmp_path], ...)` call in
`_run_snippet`: the child completed (with an exit code and raw captured
streams), the wall-clock timeout fired (`subprocess.TimeoutExpired`,
with whatever partial output the child had produced), or the launch
itself faulted with another exception (for example `FileNotFoundError`
when the interpreter binary is missing). -/
inductive ProcOutcome where
  | completed (exitCode : Int) (stdout stderr : String)
  | timedOut (partialStdout partialStderr : String)
  | launchFault (exc : String)
deriving DecidableEq

/-- `_run_snippet` from the source: on completion return the stripped
streams regardless of exit code, on `TimeoutExpired` return
`("", "Execution timed out")`; only `TimeoutExpired` is caught, so any
other exception from the launch propagates (`Except.error`). -/
def _run_snippet (code : String) (timeout : Nat) (outcome : ProcOutcome) :
    Except String (String × String) :=
  match code, timeout, outcome with
  | _, _, .completed _ out err => .ok (pyStrip out, pyStrip err)
  | _, _, .timedOut _ _ => .ok ("", "Execution timed out")
  | _, _, .launchFault exc => .error exc

/-- Python `dict` lookup (`d.get(k)` / `d[k]`), on an association list
whose keys are unique. -/
def dictLookup {α : Type} (k : String) : List (String × α) → Option α
  | [] => none
  | (k', v) :: rest => if k' = k then some v else dictLookup k rest

/-- Python `d[k] = v`: replace the value in place if the key is present,
else append the binding (insertion order preserved). -/
def dictInsert {α : Type} (k : String) (v : α) : List (String × α) → List (String × α)
  | [] => [(k, v)]
  | (k', v') :: rest =>
    if k' = k then (k, v) :: rest else (k', v') :: dictInsert k v rest

/-- Python `d.pop(k, None)`: remove the binding for `k` if present, never
an error. -/
def dictPop {α : Type} (k : String) : List (String × α) → List (String × α)
  | [] => []
  | (k', v) :: rest =>
    if k' = k then rest else (k', v) :: dictPop k rest

/-- A per-session state record (`self._state[iid]`, currently always the
empty dict). -/
abbrev StateRec := List (String × String)

/-- The `PythonInterpreterTool` instance state: `_timeout` from the
config (default 5) and the `_state` session registry. -/
structure PythonInterpreterTool where
  _timeout : Nat
  _state : List (String × StateRec)
deriving DecidableEq

/-- `PythonInterpreterTool.create`: `iid = instance_id or str(uuid4())`
(Python `or` falls through on `None` and on the empty string), then
`self._state[iid] = {}` and return `iid`.  The draw of `str(uuid4())` is
passed in as `fresh_uuid`. -/
def PythonInterpreterTool.create (t : PythonInterpreterTool)
    (instance_id : Option String) (fresh_uuid : String) :
    String × PythonInterpreterTool :=
  let iid := match instance_id with
    | some s => if s = "" then fresh_uuid else s
    | none => fresh_uuid
  (iid, { t with _state := dictInsert iid [] t._state })

/-- `PythonInterpreterTool.execute`: read `parameters.get("code", "")`,
rewrite it with `_maybe_wrap_print`, run it with `_run_snippet` under
the configured timeout, derive the reward from stderr truthiness, wrap
the JSON payload in `<tool_output>` markers sliced to 3000 characters,
and return `(text, reward, {})` leaving `self._state` untouched.  An
exception escaping `_run_snippet` propagates. -/
def PythonInterpreterTool.execute (parse : String → Bool)
    (t : PythonInterpreterTool) (instance_id : String)
    (parameters : List (String × String)) (outcome : ProcOutcome) :
    Except String (String × ℚ × List (String × String) × PythonInterpreterTool) :=
  let code := (dictLookup "code" parameters).getD ""
  match _run_snippet (_maybe_wrap_print parse code) t._timeout outcome with
  | .error exc => .error exc
  | .ok (stdout, stderr) =>
    let reward : ℚ := if stderr ≠ "" then -(1/10) else 0
    let payload := jsonDumpsStdoutStderr stdout stderr
    .ok (pySlice ("<tool_output>" ++ payload ++ "</tool_output>") 3000, reward, [], t)

/-- `PythonInterpreterTool.release`: `self._state.pop(instance_id, None)`. -/
def PythonInterpreterTool.release (t : PythonInterpreterTool)
    (instance_id : String) : PythonInterpreterTool :=
  { t with _state := dictPop instance_id t._state }

/-! Helper lemmas about the Python-dict model. -/

theorem dictLookup_dictInsert_self {α : Type} (k : String) (v : α)
    (m : List (String × α)) : dictLookup k (dictInsert k v m) = some v := by
  induction m with
  | nil => simp [dictInsert, dictLookup]
  | cons hd tl ih =>
    obtain ⟨k', v'⟩ := hd
    by_cases h : k' = k
    · subst h
      simp [dictInsert, dictLookup]
    · simp [dictInsert, dictLookup, h, ih]

theorem dictLookup_dictInsert_other {α : Type} (j k : String) (v : α)
    (m : List (String × α)) (h : j ≠ k) :
    dictLookup j (dictInsert k v m) = dictLookup j m := by
  induction m with
  | nil => simp [dictInsert, dictLookup, Ne.symm h]
  | cons hd tl ih =>
    obtain ⟨k', v'⟩ := hd
    by_cases hk : k' = k
    · subst hk
      simp [dictInsert, dictLookup, Ne.symm h]
    · simp only [dictInsert, if_neg hk, dictLookup]
      by_cases hj : k' = j
      · simp [hj]
      · simp [hj, ih]

theorem dictLookup_eq_none_of_not_mem {α : Type} (k : String)
    (m : List (String × α)) (h : k ∉ m.map Prod.fst) : dictLookup k m = none := by
  induction m with
  | nil => rfl
  | cons hd tl ih =>
    obtain ⟨k', v'⟩ := hd
    simp only [List.map_cons, List.mem_cons, not_or] at h
    simp [dictLookup, Ne.symm h.1, ih h.2]

theorem dictPop_of_lookup_none {α : Type} (k : String) (m : List (String × α))
    (h : dictLookup k m = none) : dictPop k m = m := by
  induction m with
  | nil => rfl
  | cons hd tl ih =>
    obtain ⟨k', v'⟩ := hd
    by_cases hk : k' = k
    · simp [dictLookup, hk] at h
    · simp only [dictLookup, if_neg hk] at h
      simp [dictPop, hk, ih h]

theorem dictLookup_dictPop_self {α : Type} (k : String) (m : List (String × α))
    (h : (m.map Prod.fst).Nodup) : dictLookup k (dictPop k m) = none := by
  induction m with
  | nil => rfl
  | cons hd tl ih =>
    obtain ⟨k', v'⟩ := hd
    simp only [List.map_cons, List.nodup_cons] at h
    by_cases hk : k' = k
    · subst hk
      simp only [dictPop, if_pos rfl]
      exact dictLookup_eq_none_of_not_mem k' tl h.1
    · simp [dictPop, hk, dictLookup, ih h.2]

theorem dictLookup_dictPop_other {α : Type} (j k : String) (m : List (String × α))
    (h : j ≠ k) : dictLookup j (dictPop k m) = dictLookup j m := by
  induction m with
  | nil => rfl
  | cons hd tl ih =>
    obtain ⟨k', v'⟩ := hd
    by_cases hk : k' = k
    · subst hk
      simp [dictPop, dictLookup, Ne.symm h]
    · simp only [dictPop, if_neg hk, dictLookup]
      by_cases hj : k' = j
      · simp [hj]
      · simp [hj, ih]

theorem pySlice_length_le (s : String) (n : Nat) : (pySlice s n).length ≤ n := by
  have h : (pySlice s n).length = (s.toList.take n).length := rfl
  rw [h, List.length_take]
  omega

/-- When `compile` raises nothing beyond the caught `SyntaxError`, the
explicit-exception embedding of the rewriter coincides with the
Bool-oracle embedding: the collapse of the oracle is sound exactly on
such inputs. -/
theorem maybe_wrap_print_exc_refines (compile : String → CompileResult)
    (code : String) (h : ∀ s exc, compile s ≠ CompileResult.otherExc exc) :
    _maybe_wrap_print_exc compile code =
      .ok (_maybe_wrap_print (fun s => compile s == CompileResult.ok) code) := by
  by_cases h1 : pyContains code "print(" = true
  · simp [_maybe_wrap_print_exc, _maybe_wrap_print, h1]
  · rw [Bool.not_eq_true] at h1
    cases hlast : (logicalLines code).getLast? with
    | none => simp [_maybe_wrap_print_exc, _maybe_wrap_print, h1, hlast]
    | some last =>
      by_cases h3 : pyContains last "=" = true
      · simp [_maybe_wrap_print_exc, _maybe_wrap_print, h1, hlast, h3]
      · rw [Bool.not_eq_true] at h3
        cases hc : compile last with
        | ok => simp [_maybe_wrap_print_exc, _maybe_wrap_print, h1, hlast, h3, hc]
        | syntaxError =>
          simp [_maybe_wrap_print_exc, _maybe_wrap_print, h1, hlast, h3, hc]
        | otherExc exc => exact absurd hc (h last exc)

/-! Claim theorems. -/

/-- Claim C1: the reward returned by `execute` is `-0.1` exactly when the
captured (trimmed) stderr is non-empty and `0.0` otherwise; the reward is
a function of that stderr string alone, with the stdout string, the exit
code and all other outcome data universally quantified and absent from
the formula. -/
theorem execute_reward_depends_only_on_stderr (parse : String → Bool)
    (t : PythonInterpreterTool) (iid : String) (params : List (String × String))
    (outcome : ProcOutcome) (s e : String)
    (r : String × ℚ × List (String × String) × PythonInterpreterTool)
    (hrun : _run_snippet (_maybe_wrap_print parse ((dictLookup "code" params).getD ""))
      t._timeout outcome = .ok (s, e))
    (hex : PythonInterpreterTool.execute parse t iid params outcome = .ok r) :
    r.2.1 = if e = "" then (0 : ℚ) else -(1/10) := by
  simp only [PythonInterpreterTool.execute, hrun] at hex
  simp only [Except.ok.injEq] at hex
  subst hex
  by_cases he : e = ""
  · simp [he]
  · simp [he]

theorem execute_reward_depends_only_on_stderr_witness :
    (pySlice ("<tool_output>" ++ jsonDumpsStdoutStderr "2" "" ++ "</tool_output>") 3000,
      (0 : ℚ), ([] : List (String × String)),
      (⟨5, []⟩ : PythonInterpreterTool)).2.1 = if "" = "" then (0 : ℚ) else -(1/10) :=
  execute_reward_depends_only_on_stderr (fun _ => true) ⟨5, []⟩ "sid"
    [("code", "1 + 1")] (.completed 0 "2\n" "") "2" "" _ rfl rfl

/-- Claim C2: the text returned by `execute` is the
`<tool_output>`-wrapped JSON serialization of the stdout/stderr pair,
truncated to its first 3000 characters, so its length never exceeds
3000, for arbitrary (arbitrarily long) captured streams. -/
theorem execute_envelope_bounded (parse : String → Bool)
    (t : PythonInterpreterTool) (iid : String) (params : List (String × String))
    (outcome : ProcOutcome) (s e : String)
    (r : String × ℚ × List (String × String) × PythonInterpreterTool)
    (hrun : _run_snippet (_maybe_wrap_print parse ((dictLookup "code" params).getD ""))
      t._timeout outcome = .ok (s, e))
    (hex : PythonInterpreterTool.execute parse t iid params outcome = .ok r) :
    r.1 = pySlice ("<tool_output>" ++ jsonDumpsStdoutStderr s e ++ "</tool_output>") 3000 ∧
    r.1.length ≤ 3000 := by
  simp only [PythonInterpreterTool.execute, hrun] at hex
  simp only [Except.ok.injEq] at hex
  subst hex
  exact ⟨rfl, pySlice_length_le _ _⟩

theorem execute_envelope_bounded_witness :
    (pySlice ("<tool_output>" ++ jsonDumpsStdoutStderr "2" "" ++ "</tool_output>") 3000,
      (0 : ℚ), ([] : List (String × String)),
      (⟨5, []⟩ : PythonInterpreterTool)).1 =
      pySlice ("<tool_output>" ++ jsonDumpsStdoutStderr "2" "" ++ "</tool_output>") 3000 ∧
    (pySlice ("<tool_output>" ++ jsonDumpsStdoutStderr "2" "" ++ "</tool_output>") 3000,
      (0 : ℚ), ([] : List (String × String)),
      (⟨5, []⟩ : PythonInterpreterTool)).1.length ≤ 3000 :=
  execute_envelope_bounded (fun _ => true) ⟨5, []⟩ "sid"
    [("code", "1 + 1")] (.completed 0 "2\n" "") "2" "" _ rfl rfl

/-- Claim C3 counterexample: a launch-level fault (the interpreter binary
missing raises `FileNotFoundError` inside `subprocess.run`) is not caught
by `_run_snippet` — only `TimeoutExpired` is — so the snippet runner
propagates the exception (`Except.error`) instead of returning a
`(stdout, stderr)` pair with the fault encoded as stderr text. -/
theorem run_snippet_launch_fault_raises :
    _run_snippet "x" 5 (.launchFault "FileNotFoundError") = .error "FileNotFoundError" ∧
    ¬ ∃ out err, _run_snippet "x" 5 (.launchFault "FileNotFoundError") =
      .ok (out, err) := by
  refine ⟨rfl, ?_⟩
  rintro ⟨out, err, h⟩
  simp [_run_snippet] at h

/-- Claim C3 (amended): for every code string and timeout, `_run_snippet`
returns a `(stdout, stderr)` pair when the child completes (whatever its
exit code) and on timeout, but a launch-level fault other than a timeout
(such as the interpreter binary being missing) propagates to the caller
as an uncaught exception, because only `TimeoutExpired` is caught. -/
theorem run_snippet_total_except_launch_faults (code : String) (timeout : Nat) :
    (∀ ec out err, _run_snippet code timeout (.completed ec out err) =
      .ok (pyStrip out, pyStrip err)) ∧
    (∀ po pe, _run_snippet code timeout (.timedOut po pe) =
      .ok ("", "Execution timed out")) ∧
    (∀ exc, _run_snippet code timeout (.launchFault exc) = .error exc) :=
  ⟨fun _ _ _ => rfl, fun _ _ => rfl, fun _ => rfl⟩

/-- Claim C4: when the child does not complete within the timeout,
`_run_snippet` returns `("", "Execution timed out")`, discarding the
partial streams `po`/`pe`, and `execute` consequently returns the reward
`-0.1` (with the synthetic stderr serialized into the envelope). -/
theorem timeout_discards_output_and_penalizes (parse : String → Bool)
    (t : PythonInterpreterTool) (iid : String) (params : List (String × String))
    (po pe : String) :
    _run_snippet (_maybe_wrap_print parse ((dictLookup "code" params).getD ""))
      t._timeout (.timedOut po pe) = .ok ("", "Execution timed out") ∧
    PythonInterpreterTool.execute parse t iid params (.timedOut po pe) =
      .ok (pySlice ("<tool_output>" ++
          jsonDumpsStdoutStderr "" "Execution timed out" ++ "</tool_output>") 3000,
        -(1/10), [], t) :=
  ⟨rfl, rfl⟩

/-- Claim C5: when the code has no `print(` token, its
semicolon-and-newline split leaves at least one non-empty logical line,
the last logical line has no `=`, and that line parses in expression-only
grammar mode, the rewriter returns the snippet dedented of common leading
whitespace, stripped of trailing whitespace, with a new final line that
passes the last logical line's text as the sole argument of a print
call. -/
theorem rewrite_wraps_trailing_pure_expression (parse : String → Bool)
    (code last : String)
    (h1 : pyContains code "print(" = false)
    (h2 : (logicalLines code).getLast? = some last)
    (h3 : pyContains last "=" = false)
    (h4 : parse last = true) :
    _maybe_wrap_print parse code =
      pyRstrip (pyDedent code) ++ "\nprint(" ++ last ++ ")" := by
  unfold _maybe_wrap_print
  simp [h1, h2, h3, h4]

theorem rewrite_wraps_trailing_pure_expression_witness :
    _maybe_wrap_print (fun _ => true) "1 + 1" =
      pyRstrip (pyDedent "1 + 1") ++ "\nprint(" ++ "1 + 1" ++ ")" ∧
    _maybe_wrap_print (fun _ => true) "1 + 1" = "1 + 1\nprint(1 + 1)" :=
  ⟨rewrite_wraps_trailing_pure_expression (fun _ => true) "1 + 1" "1 + 1"
    (by decide) (by decide) (by decide) rfl, by decide⟩

/-- Claim C6: whenever the last non-empty logical line (semicolons
treated as statement breaks, whitespace-only lines dropped) contains the
character `=`, the rewriter returns the code unchanged — also when the
`=` only occurs inside nested syntax such as a keyword argument, since
the test is a plain textual scan. -/
theorem rewrite_assignment_left_unchanged (parse : String → Bool)
    (code last : String)
    (h2 : (logicalLines code).getLast? = some last)
    (h3 : pyContains last "=" = true) :
    _maybe_wrap_print parse code = code := by
  unfold _maybe_wrap_print
  by_cases h1 : pyContains code "print(" = true
  · simp [h1]
  · rw [Bool.not_eq_true] at h1
    simp [h1, h2, h3]

theorem rewrite_assignment_left_unchanged_witness :
    _maybe_wrap_print (fun _ => true) "f(a=1)" = "f(a=1)" :=
  rewrite_assignment_left_unchanged (fun _ => true) "f(a=1)" "f(a=1)"
    (by decide) (by decide)

/-- Claim C7 counterexample: the rewriter is not total.  On the code
string `"\x00"` (no `print(` token, last logical line `"\x00"` — a null
byte is not Python whitespace, so it survives stripping — and no `=`),
the `compile` call raises `ValueError`, which the `except SyntaxError`
clause does not catch, so the exception propagates out of the rewriter
instead of the input being returned unchanged. -/
theorem rewrite_raises_on_null_byte_source :
    _maybe_wrap_print_exc compileNullByteValueError "\x00" =
      .error "ValueError: source code string cannot contain null bytes" := by
  rfl

/-- Claim C7 (amended): the rewriter is pure and terminates on every
input, and in the worst case returns the input unchanged — except that
when the last logical line reaches `compile` and `compile` raises an
exception other than the caught `SyntaxError` (for example `ValueError`
on a null-byte source), that exception propagates to the caller.  Every
run falls into one of the three cases: code returned unchanged, code
dedented with a print of the last logical line appended, or the compile
exception propagated. -/
theorem rewrite_total_unless_compile_raises (compile : String → CompileResult)
    (code : String) :
    _maybe_wrap_print_exc compile code = .ok code ∨
    (∃ last, (logicalLines code).getLast? = some last ∧
      _maybe_wrap_print_exc compile code =
        .ok (pyRstrip (pyDedent code) ++ "\nprint(" ++ last ++ ")")) ∨
    (∃ last exc, (logicalLines code).getLast? = some last ∧
      compile last = .otherExc exc ∧
      _maybe_wrap_print_exc compile code = .error exc) := by
  by_cases h1 : pyContains code "print(" = true
  · exact Or.inl (by simp [_maybe_wrap_print_exc, h1])
  · rw [Bool.not_eq_true] at h1
    cases hlast : (logicalLines code).getLast? with
    | none => exact Or.inl (by simp [_maybe_wrap_print_exc, h1, hlast])
    | some last =>
      by_cases h3 : pyContains last "=" = true
      · exact Or.inl (by simp [_maybe_wrap_print_exc, h1, hlast, h3])
      · rw [Bool.not_eq_true] at h3
        cases hc : compile last with
        | ok =>
          exact Or.inr (Or.inl ⟨last, rfl,
            by simp [_maybe_wrap_print_exc, h1, hlast, h3, hc]⟩)
        | syntaxError =>
          exact Or.inl (by simp [_maybe_wrap_print_exc, h1, hlast, h3, hc])
        | otherExc exc =>
          exact Or.inr (Or.inr ⟨last, exc, rfl, hc,
            by simp [_maybe_wrap_print_exc, h1, hlast, h3, hc]⟩)

/-- Claim C8: `release` removes the id's state record if present;
releasing an id that was never created (or was already released) is a
no-op that does not fail, releasing is idempotent, and every other
session's record is untouched.  The `Nodup` hypothesis is the Python
`dict` key-uniqueness invariant of the registry. -/
theorem release_removes_and_is_idempotent_noop (t : PythonInterpreterTool)
    (iid : String) (hnd : (t._state.map Prod.fst).Nodup) :
    dictLookup iid (t.release iid)._state = none ∧
    (dictLookup iid t._state = none → t.release iid = t) ∧
    (∀ j, j ≠ iid → dictLookup j (t.release iid)._state = dictLookup j t._state) ∧
    (t.release iid).release iid = t.release iid := by
  refine ⟨?_, ?_, ?_, ?_⟩
  · exact dictLookup_dictPop_self iid t._state hnd
  · intro h
    unfold PythonInterpreterTool.release
    rw [dictPop_of_lookup_none iid t._state h]
  · intro j hj
    exact dictLookup_dictPop_other j iid t._state hj
  · unfold PythonInterpreterTool.release
    rw [dictPop_of_lookup_none iid (dictPop iid t._state)
      (dictLookup_dictPop_self iid t._state hnd)]

theorem release_removes_and_is_idempotent_noop_witness :
    dictLookup "a"
      ((⟨5, [("a", []), ("b", [("k", "v")])]⟩ : PythonInterpreterTool).release "a")._state =
      none :=
  (release_removes_and_is_idempotent_noop ⟨5, [("a", []), ("b", [("k", "v")])]⟩ "a"
    (by decide)).1

/-- Claim C9: `execute` accepts any instance id — never created or
already released included — without a validation failure (its result is
the same for every id), and it leaves the session registry unchanged:
the tool state returned alongside the envelope is exactly the input
state. -/
theorem execute_preserves_registry_and_accepts_any_id (parse : String → Bool)
    (t : PythonInterpreterTool) (iid : String) (params : List (String × String))
    (outcome : ProcOutcome) :
    (∀ r, PythonInterpreterTool.execute parse t iid params outcome = .ok r →
      r.2.2.2 = t) ∧
    (∀ iid2, PythonInterpreterTool.execute parse t iid2 params outcome =
      PythonInterpreterTool.execute parse t iid params outcome) := by
  constructor
  · intro r h
    simp only [PythonInterpreterTool.execute] at h
    cases hrun : _run_snippet
        (_maybe_wrap_print parse ((dictLookup "code" params).getD ""))
        t._timeout outcome with
    | error exc =>
      rw [hrun] at h
      simp at h
    | ok pr =>
      obtain ⟨s, e⟩ := pr
      rw [hrun] at h
      simp only [Except.ok.injEq] at h
      subst h
      rfl
  · intro iid2
    rfl

theorem execute_preserves_registry_and_accepts_any_id_witness :
    (pySlice ("<tool_output>" ++ jsonDumpsStdoutStderr "2" "" ++ "</tool_output>") 3000,
      (0 : ℚ), ([] : List (String × String)),
      (⟨5, [("live", [])]⟩ : PythonInterpreterTool)).2.2.2 = ⟨5, [("live", [])]⟩ :=
  (execute_preserves_registry_and_accepts_any_id (fun _ => true) ⟨5, [("live", [])]⟩
    "never-created" [("code", "1 + 1")] (.completed 0 "2\n" "")).1 _ rfl

/-- Claim C10: for a non-empty hint `s`, `create` returns `s` and
registers it with an empty state record, silently replacing any existing
record for `s` (the lookup after `create` is `some []` whatever the
registry held) while leaving every other session unchanged; when the hint
is `none` or the empty string (both falsy under Python `or`), the freshly
generated uuid is registered instead. -/
theorem create_registers_and_returns_id (t : PythonInterpreterTool)
    (s fresh : String) (hs : s ≠ "") :
    (t.create (some s) fresh).1 = s ∧
    dictLookup s (t.create (some s) fresh).2._state = some [] ∧
    (∀ j, j ≠ s → dictLookup j (t.create (some s) fresh).2._state =
      dictLookup j t._state) ∧
    (t.create none fresh).1 = fresh ∧
    dictLookup fresh (t.create none fresh).2._state = some [] ∧
    t.create (some "") fresh = t.create none fresh := by
  refine ⟨?_, ?_, ?_, rfl, ?_, rfl⟩
  · simp [PythonInterpreterTool.create, hs]
  · simp [PythonInterpreterTool.create, hs, dictLookup_dictInsert_self]
  · intro j hj
    simp [PythonInterpreterTool.create, hs,
      dictLookup_dictInsert_other j s ([] : StateRec) t._state hj]
  · simp [PythonInterpreterTool.create, dictLookup_dictInsert_self]

theorem create_registers_and_returns_id_witness :
    dictLookup "a"
      ((⟨5, [("a", [("k", "v")])]⟩ : PythonInterpreterTool).create (some "a") "F").2._state =
      some [] :=
  (create_registers_and_returns_id ⟨5, [("a", [("k", "v")])]⟩ "a" "F" (by decide)).2.1
